import Mathlib

/-!
# Verification of the homework status bot (`src/homework.py`)

A shallow embedding of the polling bot in `homework.py`: Python values are
modelled by the inductive `PyVal`, Python exceptions by `PyError`, and each
source function (`check_tokens`, `send_message`, `get_api_answer`,
`check_response`, `parse_status`, and the body of `main`) by an executable
Lean definition that follows the source line by line.  External effects
(the HTTP request, the Telegram channel) are modelled by explicit outcome
parameters; the module-level mutable `PREVIOUS_STATUS` is threaded as
explicit state.
-/

set_option autoImplicit false

namespace HomeworkBot

/-- A Python value as it can appear in the bot's data flow: `None`, a string,
an integer, a list, or a dict (modelled as an association list; lookups take
the first matching key). -/
inductive PyVal where
  | vNone : PyVal
  | vStr : String → PyVal
  | vInt : Int → PyVal
  | vList : List PyVal → PyVal
  | vDict : List (String × PyVal) → PyVal
  deriving Repr

mutual
/-- Structural (Python `==`) equality on `PyVal`. -/
def pyEq : PyVal → PyVal → Bool
  | .vNone, .vNone => true
  | .vStr a, .vStr b => a == b
  | .vInt a, .vInt b => a == b
  | .vList xs, .vList ys => pyEqList xs ys
  | .vDict xs, .vDict ys => pyEqDict xs ys
  | _, _ => false

/-- elementwise Python `==` on lists -/
def pyEqList : List PyVal → List PyVal → Bool
  | [], [] => true
  | x :: xs, y :: ys => pyEq x y && pyEqList xs ys
  | _, _ => false

/-- entrywise Python `==` on dicts (order-sensitive, which agrees with the
insertion-ordered dict literals this program builds) -/
def pyEqDict : List (String × PyVal) → List (String × PyVal) → Bool
  | [], [] => true
  | (k, x) :: xs, (l, y) :: ys => k == l && pyEq x y && pyEqDict xs ys
  | _, _ => false
end

instance : BEq PyVal := ⟨pyEq⟩

/-- Python `d[k]` / `k in d` lookup on a dict, first match wins. -/
def dictLookup (kvs : List (String × PyVal)) (k : String) : Option PyVal :=
  (kvs.find? (fun p => p.1 == k)).map Prod.snd

/-- Python exceptions that the bot's code can raise. -/
inductive PyError where
  | typeError : String → PyError
  | keyError : String → PyError
  | indexError : String → PyError
  /-- `more_exceptions.UndocumentedStatus` -/
  | undocumentedStatus : String → PyError
  /-- a plain `Exception(...)` (raised by `get_api_answer` on non-200) -/
  | exception : String → PyError
  deriving Repr, DecidableEq

/-- Log levels of the `logging` module. -/
inductive LogLevel where
  | debug | info | warning | error | critical
  deriving Repr, DecidableEq

/-- `HOMEWORK_VERDICTS` from the source: the fixed verdict table. -/
def HOMEWORK_VERDICTS : List (String × String) :=
  [("approved", "Работа проверена: ревьюеру всё понравилось. Ура!"),
   ("reviewing", "Работа взята на проверку ревьюером."),
   ("rejected", "Работа проверена: у ревьюера есть замечания.")]

/-- `status in HOMEWORK_VERDICTS` and the subsequent `HOMEWORK_VERDICTS[status]`:
dict-key membership succeeds only for string keys present in the table. -/
def verdictOf (status : PyVal) : Option String :=
  match status with
  | .vStr s => (HOMEWORK_VERDICTS.find? (fun p => p.1 == s)).map Prod.snd
  | _ => none

/-- Initial value of the module-level mutable `PREVIOUS_STATUS` (`''`). -/
def PREVIOUS_STATUS_init : PyVal := .vStr ""

/-- `RETRY_PERIOD` from the source. -/
def RETRY_PERIOD : Nat := 600

/-! ## Credential Gate (`check_tokens`) and startup (`main`, lines 166-184) -/

/-- The three environment values read at module import
(`os.getenv` returns `None` when the variable is unset). -/
structure Env where
  PRACTICUM_TOKEN : Option String
  TELEGRAM_TOKEN : Option String
  TELEGRAM_CHAT_ID : Option String
  deriving Repr, DecidableEq

/-- `token_values is None or token_values == ''` from `check_tokens`. -/
def tokenMissing : Option String → Bool
  | none => true
  | some s => s == ""

/-- `check_tokens()`: returns `False` on the first unset or empty variable
(after a `logging.critical`), `True` otherwise. -/
def check_tokens (env : Env) : Bool :=
  !(tokenMissing env.PRACTICUM_TOKEN) &&
  !(tokenMissing env.TELEGRAM_TOKEN) &&
  !(tokenMissing env.TELEGRAM_CHAT_ID)

/-- `PRACTICUM_TOKEN is None or TELEGRAM_TOKEN is None or TELEGRAM_CHAT_ID is None`
— the guard at the top of `main` (only `None`, not the empty string). -/
def anyTokenNone (env : Env) : Bool :=
  env.PRACTICUM_TOKEN.isNone || env.TELEGRAM_TOKEN.isNone ||
  env.TELEGRAM_CHAT_ID.isNone

/-- How the process leaves (or does not leave) `main`'s startup phase. -/
inductive MainOutcome where
  /-- the process terminated with this exit status -/
  | exit : Nat → MainOutcome
  /-- the infinite polling loop is entered and never left -/
  | loops : MainOutcome
  deriving Repr, DecidableEq

/-- Startup phase of `main`: if any of the three values is `None`,
`sys.exit(1)`.  Otherwise `check = check_tokens()`; the first loop iteration
begins with `if check is False: break`, which leaves the `while` loop and
lets `main` return normally — process exit status `0`.  With `check` true the
loop runs forever. -/
def main_startup (env : Env) : MainOutcome :=
  if anyTokenNone env then .exit 1
  else if check_tokens env = false then .exit 0
  else .loops

/-! ## Notifier (`send_message`, lines 56-70) -/

/-- Behaviour of the Telegram channel on one `bot.send_message` call:
delivery succeeds, or the call raises a `telegram.error.TelegramError`,
or it raises an exception of some other class. -/
inductive SendOutcome where
  | delivered
  | telegramError
  | otherException
  deriving Repr, DecidableEq

/-- `send_message(bot, message)`: the `try` block sends and logs at debug
severity; `except telegram.error.TelegramError` catches exactly that class
and logs at error severity.  Any other exception from the channel
propagates.  Returns the log lines it produced. -/
def send_message (message : PyVal) (outcome : SendOutcome) :
    Except PyError (List (LogLevel × String)) :=
  match outcome with
  | .delivered => .ok [(.debug, "Сообщение отправлено")]
  | .telegramError => .ok [(.error, "Произошла ошибка отправки сообщения ботом")]
  | .otherException => .error (.exception "channel failure outside TelegramError")

/-! ## API Client (`get_api_answer`, lines 73-96) -/

/-- Behaviour of the HTTP transport on one `requests.get` call: a response
with a status code and an already-parsed JSON body, or a raised
`requests.RequestException` (connection refused, timeout, DNS failure). -/
inductive HttpOutcome where
  | response : Nat → PyVal → HttpOutcome
  | requestException : String → HttpOutcome
  deriving Repr

/-- `get_api_answer(timestamp)`: on a non-200 status code raises a plain
`Exception` (which `except requests.RequestException` does not catch, so it
propagates); on 200 returns the parsed body.  A `requests.RequestException`
is caught, logged, and the function falls off the end — returning `None`. -/
def get_api_answer (outcome : HttpOutcome) : Except PyError PyVal :=
  match outcome with
  | .response code body =>
      if code ≠ 200 then
        .error (.exception ("Ошибка при запросе API: код ответа" ++ toString code))
      else
        .ok body
  | .requestException _ => .ok .vNone

/-! ## Response Validator (`check_response`, lines 99-125) -/

/-- Whether the substring `"homeworks"` occurs in `s`
(Python `'homeworks' in response` when `response` is a `str`). -/
def containsHomeworks (s : String) : Bool :=
  (s.splitOn "homeworks").length > 1

/-- `check_response(response)` transcribed from the source:
`isinstance(response, list)` raises `TypeError`; then `'homeworks' in
response` (for a dict: key membership; for a string: substring; for `None`
or an int: `TypeError`, `in` needs an iterable); inside that branch a
non-dict raises `TypeError`, a non-list `homeworks` value raises
`TypeError`, and the function returns `homework[0]` — the FIRST element —
which raises `IndexError` on an empty list.  A dict without the key raises
`KeyError`. -/
def check_response (response : PyVal) : Except PyError PyVal :=
  match response with
  | .vList _ => .error (.typeError "Ожидается словарь, получен список")
  | .vDict kvs =>
      match dictLookup kvs "homeworks" with
      | some (.vList items) =>
          match items with
          | [] => .error (.indexError "list index out of range")
          | x :: _ => .ok x
      | some _ => .error (.typeError "Ожидался тип данных список")
      | none => .error (.keyError "Нет ключа \"homeworks\"")
  | .vStr s =>
      if containsHomeworks s then
        .error (.typeError "В ответ от API ожидался тип данных словарь.")
      else
        .error (.keyError "Нет ключа \"homeworks\"")
  | .vNone => .error (.typeError "argument of type 'NoneType' is not iterable")
  | .vInt _ => .error (.typeError "argument of type 'int' is not iterable")

/-! ## Status Extractor (`parse_status`, lines 128-163) -/

mutual
/-- Python `repr` of a value, as used when a non-string lands in an f-string
through `str` of a container. -/
def pyReprOf : PyVal → String
  | .vNone => "None"
  | .vStr s => "'" ++ s ++ "'"
  | .vInt n => toString n
  | .vList xs => "[" ++ pyReprList xs ++ "]"
  | .vDict kvs => "\x7b" ++ pyReprDict kvs ++ "\x7d"

/-- comma-separated `repr`s of the elements of a list -/
def pyReprList : List PyVal → String
  | [] => ""
  | [x] => pyReprOf x
  | x :: xs => pyReprOf x ++ ", " ++ pyReprList xs

/-- comma-separated `repr`s of the entries of a dict -/
def pyReprDict : List (String × PyVal) → String
  | [] => ""
  | [(k, v)] => "'" ++ k ++ "': " ++ pyReprOf v
  | (k, v) :: kvs => "'" ++ k ++ "': " ++ pyReprOf v ++ ", " ++ pyReprDict kvs
end

/-- Python `str` of a value — what an f-string interpolation produces. -/
def pyStrOf : PyVal → String
  | .vStr s => s
  | v => pyReprOf v

/-- `parse_status(homework)` transcribed from the source, with the
module-level mutable `PREVIOUS_STATUS` threaded explicitly: `prev` is its
value before the call, the second component of a successful result its
value after the call.  The first component is the returned message
(`none` = Python `None`).

Source control flow: `homework.get('status')` raises `AttributeError` on a
non-dict, which the `except AttributeError` clause turns into `return None`;
a dict without `'homework_name'` raises `KeyError`; if the status equals
`PREVIOUS_STATUS` the `if` branch is `pass` and the function falls off the
end, returning `None` without touching the global; otherwise a status found
in `HOMEWORK_VERDICTS` updates the global and returns the formatted message,
and an unknown status raises `UndocumentedStatus`. -/
def parse_status (prev : PyVal) (homework : PyVal) :
    Except PyError (Option String × PyVal) :=
  match homework with
  | .vDict kvs =>
      let status := (dictLookup kvs "status").getD .vNone
      if (dictLookup kvs "homework_name").isNone then
        .error (.keyError "Нет ключа \"homeworks\"")
      else
        let homework_name := (dictLookup kvs "homework_name").getD .vNone
        if pyEq status prev then
          .ok (none, prev)
        else
          match verdictOf status with
          | some verdict =>
              .ok (some ("Изменился статус проверки работы \"" ++
                    pyStrOf homework_name ++ "\"." ++ verdict), status)
          | none => .error (.undocumentedStatus "Неизвестный статус работы")
  | _ => .ok (none, prev)

/-! ## Poll Loop (`main`, lines 180-200): one `while True` iteration -/

/-- The orchestrator's mutable state across cycles: `timestamp` (the fetch
watermark, set once before the loop and never reassigned in the source) and
the module-level `PREVIOUS_STATUS`. -/
structure CycleState where
  timestamp : Int
  previous_status : PyVal
  deriving Repr

/-- The external world's behaviour during one cycle: the HTTP transport's
outcome, the channel's outcome for the in-`try` `send_message(bot, message)`
call, and its outcome for the `send_message` call in the `except` clause. -/
structure CycleInput where
  http : HttpOutcome
  sendOutcome : SendOutcome
  errSendOutcome : SendOutcome
  deriving Repr

/-- What one loop iteration did: the state afterwards, the `message`
arguments passed to `send_message` in order, the argument passed to
`parse_status` (if the cycle reached it), the exception handled by the
`except Exception` clause (if any), and an exception that escaped `main`
(only possible if the `except`-clause `send_message` itself raises). -/
structure CycleResult where
  state : CycleState
  sentArgs : List PyVal
  extractorArg : Option PyVal
  caughtError : Option PyError
  escapedError : Option PyError
  deriving Repr

/-- Python `str(error)`: `KeyError` renders the `repr` of its argument,
the others render the message itself. -/
def pyErrorText : PyError → String
  | .typeError m => m
  | .keyError m => "'" ++ m ++ "'"
  | .indexError m => m
  | .undocumentedStatus m => m
  | .exception m => m

/-- The `except Exception as error` clause of the loop: log the error, send
`f'Произошла ошибка: {error}'` best-effort (a non-`TelegramError` from that
send escapes `main`), and sleep.  The state `st` passed in already reflects
any `PREVIOUS_STATUS` mutation that happened before the exception. -/
def exceptClause (st : CycleState) (inp : CycleInput) (sentSoFar : List PyVal)
    (arg : Option PyVal) (e : PyError) : CycleResult :=
  let errText := PyVal.vStr ("Произошла ошибка: " ++ pyErrorText e)
  match send_message errText inp.errSendOutcome with
  | .ok _ => ⟨st, sentSoFar ++ [errText], arg, some e, none⟩
  | .error e2 => ⟨st, sentSoFar ++ [errText], arg, some e, some e2⟩

/-- One iteration of `main`'s `while True` loop (with `check` true):
`response = get_api_answer(timestamp)`, `homework = check_response(response)`,
`message = parse_status(homework)`, `send_message(bot, message)`,
`time.sleep(RETRY_PERIOD)`; any exception goes to `exceptClause`.
`timestamp` is never reassigned anywhere in the loop. -/
def runCycle (st : CycleState) (inp : CycleInput) : CycleResult :=
  match get_api_answer inp.http with
  | .error e => exceptClause st inp [] none e
  | .ok response =>
    match check_response response with
    | .error e => exceptClause st inp [] none e
    | .ok homework =>
      match parse_status st.previous_status homework with
      | .error e => exceptClause st inp [] (some homework) e
      | .ok (message, newPrev) =>
        let st' : CycleState := ⟨st.timestamp, newPrev⟩
        let msgVal := match message with
          | none => PyVal.vNone
          | some s => PyVal.vStr s
        match send_message msgVal inp.sendOutcome with
        | .ok _ => ⟨st', [msgVal], some homework, none, none⟩
        | .error e => exceptClause st' inp [msgVal] (some homework) e

/-! ## Helper lemmas -/

theorem exceptClause_state (st : CycleState) (inp : CycleInput)
    (sent : List PyVal) (arg : Option PyVal) (e : PyError) :
    (exceptClause st inp sent arg e).state = st := by
  obtain ⟨http, so, eso⟩ := inp
  cases eso <;> rfl

theorem exceptClause_extractorArg (st : CycleState) (inp : CycleInput)
    (sent : List PyVal) (arg : Option PyVal) (e : PyError) :
    (exceptClause st inp sent arg e).extractorArg = arg := by
  obtain ⟨http, so, eso⟩ := inp
  cases eso <;> rfl

theorem exceptClause_caughtError (st : CycleState) (inp : CycleInput)
    (sent : List PyVal) (arg : Option PyVal) (e : PyError) :
    (exceptClause st inp sent arg e).caughtError = some e := by
  obtain ⟨http, so, eso⟩ := inp
  cases eso <;> rfl

theorem exceptClause_sentArgs (st : CycleState) (inp : CycleInput)
    (sent : List PyVal) (arg : Option PyVal) (e : PyError) :
    (exceptClause st inp sent arg e).sentArgs =
      sent ++ [.vStr ("Произошла ошибка: " ++ pyErrorText e)] := by
  obtain ⟨http, so, eso⟩ := inp
  cases eso <;> rfl

mutual
theorem pyEq_refl : ∀ v : PyVal, pyEq v v = true
  | .vNone => rfl
  | .vStr s => by simp [pyEq]
  | .vInt n => by simp [pyEq]
  | .vList xs => by rw [pyEq]; exact pyEqList_refl xs
  | .vDict kvs => by rw [pyEq]; exact pyEqDict_refl kvs

theorem pyEqList_refl : ∀ xs : List PyVal, pyEqList xs xs = true
  | [] => rfl
  | x :: xs => by rw [pyEqList]; simp [pyEq_refl x, pyEqList_refl xs]

theorem pyEqDict_refl : ∀ kvs : List (String × PyVal), pyEqDict kvs kvs = true
  | [] => rfl
  | (k, v) :: kvs => by rw [pyEqDict]; simp [pyEq_refl v, pyEqDict_refl kvs]
end

/-! ## Claim C1 — which record reaches the Status Extractor -/

/-- Claim C1 counterexample: with records `["A", "B"]` the record passed to
`parse_status` is `"A"`, not the last element `"B"` — the claim that the
extractor receives the last element of the records sequence is false. -/
theorem C1_counterexample :
    (runCycle ⟨500, .vStr ""⟩
        ⟨.response 200 (.vDict [("homeworks", .vList [.vStr "A", .vStr "B"])]),
         .delivered, .delivered⟩).extractorArg = some (.vStr "A") ∧
    some (PyVal.vStr "A") ≠
      ([PyVal.vStr "A", PyVal.vStr "B"].getLast?) := by
  constructor
  · rfl
  · simp

/-- Claim C1 (amended): in every cycle whose fetch succeeds with a 200
response that is a mapping with a non-empty list under `"homeworks"`, the
record passed to the Status Extractor is the FIRST element of the records
sequence (`homework[0]` in `check_response`), not the last. -/
theorem C1_extractor_gets_first_record (st : CycleState) (inp : CycleInput)
    (kvs : List (String × PyVal)) (items : List PyVal)
    (hhttp : inp.http = .response 200 (.vDict kvs))
    (hhw : dictLookup kvs "homeworks" = some (.vList items))
    (hne : items ≠ []) :
    (runCycle st inp).extractorArg = items.head? := by
  match items, hne with
  | x :: xs, _ =>
    have hcr : check_response (.vDict kvs) = .ok x := by
      simp [check_response, hhw]
    rcases hps : parse_status st.previous_status x with e | ⟨m, p⟩
    · simp [runCycle, hhttp, get_api_answer, hcr, hps, exceptClause_extractorArg]
    · cases m <;> cases hso : inp.sendOutcome <;>
        simp [runCycle, hhttp, get_api_answer, hcr, hps, hso, send_message,
          exceptClause_extractorArg]

/-- Claim C1 witness: concrete instance of the amended theorem. -/
theorem C1_witness :
    ([PyVal.vStr "X"] : List PyVal) ≠ [] ∧
    (runCycle ⟨0, .vStr ""⟩
        ⟨.response 200 (.vDict [("homeworks", .vList [.vStr "X"])]),
         .delivered, .delivered⟩).extractorArg = [PyVal.vStr "X"].head? :=
  ⟨by simp, C1_extractor_gets_first_record _ _ _ _ rfl rfl (by simp)⟩

/-! ## Claim C2 — what `check_response` returns -/

/-- Claim C2 counterexample: on a mapping with a sequence-valued records
field, `check_response` returns the first record, not the payload unchanged
(so the caller cannot read the cursor field from its result). -/
theorem C2_counterexample :
    check_response
        (.vDict [("homeworks", .vList [.vStr "A"]), ("current_date", .vInt 1000)]) =
      .ok (.vStr "A") ∧
    check_response
        (.vDict [("homeworks", .vList [.vStr "A"]), ("current_date", .vInt 1000)]) ≠
      .ok (.vDict [("homeworks", .vList [.vStr "A"]), ("current_date", .vInt 1000)]) := by
  constructor
  · rfl
  · intro h
    exact PyVal.noConfusion (Except.ok.inj h)

/-- Claim C2 (amended): for every payload that is a mapping whose
`"homeworks"` field is a NON-EMPTY sequence, `check_response` returns the
first element of that sequence (on an empty sequence it raises
`IndexError`, see C5). -/
theorem C2_check_response_returns_first (kvs : List (String × PyVal))
    (x : PyVal) (xs : List PyVal)
    (hhw : dictLookup kvs "homeworks" = some (.vList (x :: xs))) :
    check_response (.vDict kvs) = .ok x := by
  simp [check_response, hhw]

/-- Claim C2 witness: concrete instance of the amended theorem. -/
theorem C2_witness :
    dictLookup [("homeworks", PyVal.vList [PyVal.vStr "A"])] "homeworks" =
      some (.vList (PyVal.vStr "A" :: [])) ∧
    check_response (.vDict [("homeworks", .vList [.vStr "A"])]) = .ok (.vStr "A") :=
  ⟨rfl, C2_check_response_returns_first _ _ _ rfl⟩

/-! ## Claim C3 — the watermark after a cycle -/

/-- Claim C3 counterexample: a fully successful cycle whose response carries
`current_date = 1000` leaves the watermark at its previous value `500`; it
does not become the server-reported cursor. -/
theorem C3_counterexample :
    (runCycle ⟨500, .vStr ""⟩
        ⟨.response 200 (.vDict
            [("homeworks", .vList [.vDict [("status", .vStr "approved"),
                ("homework_name", .vStr "hw1")]]),
             ("current_date", .vInt 1000)]),
         .delivered, .delivered⟩).state.timestamp = 500 ∧
    (500 : Int) ≠ 1000 := by
  constructor
  · rfl
  · decide

/-- Claim C3 (amended): after every cycle — successful or not — the
orchestrator watermark equals its value from before the cycle; `timestamp`
is never reassigned anywhere in the loop, and the server-reported
`current_date` is never read. -/
theorem C3_watermark_never_advances (st : CycleState) (inp : CycleInput) :
    (runCycle st inp).state.timestamp = st.timestamp := by
  rcases hga : get_api_answer inp.http with e | response
  · simp [runCycle, hga, exceptClause_state]
  · rcases hcr : check_response response with e | homework
    · simp [runCycle, hga, hcr, exceptClause_state]
    · rcases hps : parse_status st.previous_status homework with e | ⟨m, p⟩
      · simp [runCycle, hga, hcr, hps, exceptClause_state]
      · cases m <;> cases hso : inp.sendOutcome <;>
          simp [runCycle, hga, hcr, hps, hso, send_message, exceptClause_state]

/-! ## Claim C4 — idempotence of the Status Extractor -/

/-- Claim C4 counterexample: two successive calls of `parse_status` with the
identical record do NOT yield the identical result: the first returns the
formatted message and silently rebinds `PREVIOUS_STATUS`, the second
returns `None`. -/
theorem C4_counterexample :
    parse_status PREVIOUS_STATUS_init
        (.vDict [("status", .vStr "approved"), ("homework_name", .vStr "hw1")]) =
      .ok (some "Изменился статус проверки работы \"hw1\".Работа проверена: ревьюеру всё понравилось. Ура!",
           .vStr "approved") ∧
    parse_status (.vStr "approved")
        (.vDict [("status", .vStr "approved"), ("homework_name", .vStr "hw1")]) =
      .ok (none, .vStr "approved") ∧
    (some "Изменился статус проверки работы \"hw1\".Работа проверена: ревьюеру всё понравилось. Ура!" : Option String) ≠ none :=
  ⟨rfl, rfl, by simp⟩

/-- Claim C4 (amended): `parse_status` is NOT a pure function of the record:
it reads and rebinds the module-level `PREVIOUS_STATUS`.  Whenever a call
returns a formatted message, the immediately following call with the
identical record returns `None` instead of that message. -/
theorem C4_second_call_returns_none (prev hw : PyVal) (m : String) (p' : PyVal)
    (h : parse_status prev hw = .ok (some m, p')) :
    parse_status p' hw = .ok (none, p') := by
  cases hw with
  | vDict kvs =>
    simp only [parse_status] at h ⊢
    cases hname : (dictLookup kvs "homework_name").isNone with
    | true => simp [hname] at h
    | false =>
      cases heq : pyEq ((dictLookup kvs "status").getD .vNone) prev with
      | true => simp [hname, heq] at h
      | false =>
        rcases hv : verdictOf ((dictLookup kvs "status").getD .vNone) with _ | verdict
        · simp [hname, heq, hv] at h
        · simp only [hname, heq, hv] at h
          simp at h
          obtain ⟨hm, hp⟩ := h
          subst hp
          simp [hname, pyEq_refl]
  | vNone => simp [parse_status] at h
  | vStr s => simp [parse_status] at h
  | vInt n => simp [parse_status] at h
  | vList xs => simp [parse_status] at h

/-- Claim C4 witness: concrete instance of the amended theorem. -/
theorem C4_witness :
    parse_status (.vStr "reviewing")
        (.vDict [("status", .vStr "reviewing"), ("homework_name", .vStr "hw9")]) =
      .ok (none, .vStr "reviewing") :=
  C4_second_call_returns_none (.vStr "") _
    "Изменился статус проверки работы \"hw9\".Работа взята на проверку ревьюером." _ rfl

/-! ## Claim C5 — the empty records list -/

/-- Claim C5: the code contradicts the documented empty-list behaviour.  On
the payload `{"homeworks": []}` the line `homework = homework[0]` in
`check_response` raises `IndexError`; the loop boundary catches it, logs an
error (no warning is ever logged), and DOES call the Notifier — with a
failure text. -/
theorem C5_empty_records_raises_IndexError :
    check_response (.vDict [("homeworks", .vList [])]) =
      .error (.indexError "list index out of range") ∧
    (runCycle ⟨500, PREVIOUS_STATUS_init⟩
        ⟨.response 200 (.vDict [("homeworks", .vList [])]),
         .delivered, .delivered⟩).caughtError =
      some (.indexError "list index out of range") ∧
    (runCycle ⟨500, PREVIOUS_STATUS_init⟩
        ⟨.response 200 (.vDict [("homeworks", .vList [])]),
         .delivered, .delivered⟩).sentArgs =
      [.vStr "Произошла ошибка: list index out of range"] :=
  ⟨rfl, rfl, rfl⟩

/-! ## Claim C6 — records with an absent status field -/

/-- Claim C6 counterexample: on a record with `homework_name` but no
`status`, `parse_status` raises `UndocumentedStatus` — exactly the
unknown-verdict error kind the claim rules out (`None` is not a key of
`HOMEWORK_VERDICTS`), not a missing-field `KeyError`. -/
theorem C6_counterexample :
    parse_status PREVIOUS_STATUS_init (.vDict [("homework_name", .vStr "hw2")]) =
      .error (.undocumentedStatus "Неизвестный статус работы") := rfl

/-- Claim C6 (amended): for every record whose `status` field is absent but
whose `homework_name` field is present, and whose remembered previous
status is not `None`, `parse_status` fails with the unknown-verdict error
`UndocumentedStatus` (because `homework.get('status')` yields `None`, which
is not in the verdict table) — there is no missing-field error for the
status field. -/
theorem C6_missing_status_gives_unknown_verdict (prev : PyVal)
    (kvs : List (String × PyVal))
    (hst : dictLookup kvs "status" = none)
    (hname : (dictLookup kvs "homework_name").isNone = false)
    (hprev : pyEq .vNone prev = false) :
    parse_status prev (.vDict kvs) =
      .error (.undocumentedStatus "Неизвестный статус работы") := by
  simp [parse_status, hst, hname, hprev, verdictOf]

/-- Claim C6 witness: concrete instance of the amended theorem. -/
theorem C6_witness :
    parse_status (.vStr "") (.vDict [("homework_name", .vStr "hw3")]) =
      .error (.undocumentedStatus "Неизвестный статус работы") :=
  C6_missing_status_gives_unknown_verdict (.vStr "") _ rfl rfl rfl

/-! ## Claim C7 — transport-level fetch failures -/

/-- Claim C7 counterexample: when the underlying request raises a transport
exception, `get_api_answer` does not fail — the `except
requests.RequestException` clause swallows the exception and the function
returns a value (`None`). -/
theorem C7_counterexample :
    get_api_answer (.requestException "connection refused") = .ok .vNone ∧
    (get_api_answer (.requestException "connection refused")).isOk = true :=
  ⟨rfl, rfl⟩

/-- Claim C7 (amended): on every transport-level failure `get_api_answer`
catches the exception, logs it, and returns `None`; the cycle then fails
later, when `check_response(None)` evaluates `'homeworks' in None` and
raises `TypeError`, which the loop boundary catches — the Status Extractor
is never reached. -/
theorem C7_transport_error_swallowed (st : CycleState) (inp : CycleInput)
    (msg : String) (hhttp : inp.http = .requestException msg) :
    get_api_answer inp.http = .ok .vNone ∧
    (runCycle st inp).caughtError =
      some (.typeError "argument of type 'NoneType' is not iterable") ∧
    (runCycle st inp).extractorArg = none := by
  have hga : get_api_answer inp.http = .ok .vNone := by rw [hhttp]; rfl
  refine ⟨hga, ?_, ?_⟩ <;>
    simp [runCycle, hga, check_response, exceptClause_caughtError,
      exceptClause_extractorArg]

/-- Claim C7 witness: concrete instance of the amended theorem. -/
theorem C7_witness :
    get_api_answer (HttpOutcome.requestException "timeout") = .ok .vNone ∧
    (runCycle ⟨0, .vStr ""⟩
        ⟨.requestException "timeout", .delivered, .delivered⟩).caughtError =
      some (.typeError "argument of type 'NoneType' is not iterable") ∧
    (runCycle ⟨0, .vStr ""⟩
        ⟨.requestException "timeout", .delivered, .delivered⟩).extractorArg = none :=
  C7_transport_error_swallowed ⟨0, .vStr ""⟩
    ⟨.requestException "timeout", .delivered, .delivered⟩ "timeout" rfl

/-! ## Claim C8 — startup termination on a failing credential gate -/

/-- Claim C8 counterexample: with `PRACTICUM_TOKEN` present but empty, the
Credential Gate fails (`check_tokens` is false) yet the process exits with
status 0: the `None`-guard in `main` does not fire, and `if check is False:
break` leaves the loop, letting `main` return normally. -/
theorem C8_counterexample :
    check_tokens ⟨some "", some "token", some "chat"⟩ = false ∧
    main_startup ⟨some "", some "token", some "chat"⟩ = .exit 0 :=
  ⟨rfl, rfl⟩

/-- Claim C8 (amended): whenever the Credential Gate fails the process does
terminate at startup (the loop never runs), but the exit status is non-zero
only when some value is `None`; a configuration whose values are all
present (so merely empty) terminates with exit status 0. -/
theorem C8_startup_terminates (env : Env)
    (hfail : check_tokens env = false) :
    (anyTokenNone env = true → main_startup env = .exit 1) ∧
    (anyTokenNone env = false → main_startup env = .exit 0) ∧
    main_startup env ≠ .loops := by
  refine ⟨?_, ?_, ?_⟩
  · intro h
    simp [main_startup, h]
  · intro h
    simp [main_startup, h, hfail]
  · cases h : anyTokenNone env <;> simp [main_startup, h, hfail]

/-- Claim C8 witness: concrete instance of the amended theorem. -/
theorem C8_witness :
    check_tokens ⟨none, some "t", some "c"⟩ = false ∧
    main_startup ⟨none, some "t", some "c"⟩ = .exit 1 :=
  ⟨rfl, (C8_startup_terminates ⟨none, some "t", some "c"⟩ rfl).1 rfl⟩

/-! ## Claim C9 — what `send_message` swallows -/

/-- Claim C9 counterexample: `send_message` catches only
`telegram.error.TelegramError`; a delivery failure of any other exception
class propagates to the caller, so `send_message` is not exception-free for
every failure of the channel's send operation. -/
theorem C9_counterexample :
    send_message (.vStr "hello") .otherException =
      .error (.exception "channel failure outside TelegramError") := rfl

/-- Claim C9 (amended): for every message, a delivery failure that raises
`telegram.error.TelegramError` is caught inside `send_message` and logged at
error severity, and control returns normally; only failures of other
exception classes propagate. -/
theorem C9_telegram_errors_swallowed (message : PyVal) (outcome : SendOutcome)
    (h : outcome ≠ .otherException) :
    (send_message message outcome).isOk = true ∧
    (outcome = .telegramError →
      send_message message outcome =
        .ok [(.error, "Произошла ошибка отправки сообщения ботом")]) := by
  cases outcome with
  | delivered => exact ⟨rfl, fun hc => by cases hc⟩
  | telegramError => exact ⟨rfl, fun _ => rfl⟩
  | otherException => exact absurd rfl h

/-- Claim C9 witness: concrete instance of the amended theorem. -/
theorem C9_witness :
    (send_message (.vStr "hi") .telegramError).isOk = true ∧
    send_message (.vStr "hi") .telegramError =
      .ok [(.error, "Произошла ошибка отправки сообщения ботом")] :=
  ⟨(C9_telegram_errors_swallowed (.vStr "hi") .telegramError (by decide)).1,
   (C9_telegram_errors_swallowed (.vStr "hi") .telegramError (by decide)).2 rfl⟩

/-! ## Claim C10 — the `PREVIOUS_STATUS` discipline -/

/-- Claim C10: `parse_status` rebinds `PREVIOUS_STATUS` only on the branch
that returns a formatted message (a call returning `None` leaves the state
unchanged); for every record carrying `homework_name` whose status equals
the current `PREVIOUS_STATUS`, the call returns `None` without raising and
without mutating the state; and the cycle then passes that `None` on to
`send_message` as the message argument. -/
theorem C10_previous_status_discipline :
    (∀ prev hw p', parse_status prev hw = .ok (none, p') → p' = prev) ∧
    (∀ prev kvs, (dictLookup kvs "homework_name").isNone = false →
      pyEq ((dictLookup kvs "status").getD .vNone) prev = true →
      parse_status prev (.vDict kvs) = .ok (none, prev)) ∧
    (∀ st inp response hw p',
      get_api_answer inp.http = .ok response →
      check_response response = .ok hw →
      parse_status st.previous_status hw = .ok (none, p') →
      (runCycle st inp).sentArgs.head? = some .vNone) := by
  refine ⟨?_, ?_, ?_⟩
  · intro prev hw p' h
    cases hw with
    | vDict kvs =>
      simp only [parse_status] at h
      cases hname : (dictLookup kvs "homework_name").isNone with
      | true => simp [hname] at h
      | false =>
        cases heq : pyEq ((dictLookup kvs "status").getD .vNone) prev with
        | true =>
          simp [hname, heq] at h
          exact h.symm
        | false =>
          rcases hv : verdictOf ((dictLookup kvs "status").getD .vNone) with _ | verdict
          · simp [hname, heq, hv] at h
          · simp [hname, heq, hv] at h
    | vNone => simp [parse_status] at h; exact h.symm
    | vStr s => simp [parse_status] at h; exact h.symm
    | vInt n => simp [parse_status] at h; exact h.symm
    | vList xs => simp [parse_status] at h; exact h.symm
  · intro prev kvs hname heq
    simp [parse_status, hname, heq]
  · intro st inp response hw p' hga hcr hps
    cases hso : inp.sendOutcome <;>
      simp [runCycle, hga, hcr, hps, hso, send_message, exceptClause_sentArgs]

/-- Claim C10 witness: concrete instance — a record whose status equals the
remembered previous status yields `None` and an unchanged state, and the
cycle passes `None` to `send_message`. -/
theorem C10_witness :
    parse_status (.vStr "rejected")
        (.vDict [("status", .vStr "rejected"), ("homework_name", .vStr "hw4")]) =
      .ok (none, .vStr "rejected") ∧
    (runCycle ⟨7, .vStr "rejected"⟩
        ⟨.response 200 (.vDict [("homeworks", .vList
            [.vDict [("status", .vStr "rejected"), ("homework_name", .vStr "hw4")]])]),
         .delivered, .delivered⟩).sentArgs.head? = some .vNone :=
  ⟨C10_previous_status_discipline.2.1 (.vStr "rejected") _ rfl rfl,
   C10_previous_status_discipline.2.2 _ _ _ _ (.vStr "rejected") rfl rfl rfl⟩

end HomeworkBot
